import Mathlib

/-!
Shallow embedding of the meeting-analysis pipeline (`main.py`) and proofs
about it.

The program wires external services together: it authenticates against a
storage and a spreadsheet API, lists audio/video files per team folder,
downloads each file, transcribes it with a local speech-to-text model,
sends the transcript to a generative-language model, appends the parsed
result to a spreadsheet and archives the file.

External effects are modelled by explicit oracle parameters (did a given
call succeed, what segments or text did the model return), and stateful
resources (the file system holding the temporary file, the spreadsheet's
rows, the file's folder) are threaded as explicit state.  Fallible calls
whose exceptions escape a function are modelled with `Except`; exceptions
the source catches internally never appear in a function's result type.
-/

/-- A parsed JSON object, as the Sheet Writer consumes it: an association
list from field names to cell values (Python `dict`, unique keys in
practice, lookup takes the first binding). -/
abbrev Record := List (String × String)

/-- Python `data.get(key, dflt)`. -/
def recGet (data : Record) (key dflt : String) : String :=
  match data.find? (fun p => p.1 == key) with
  | some p => p.2
  | none => dflt

/-- Python truthiness of an optional string: `None` and `""` are falsy. -/
def optTruthy : Option String → Bool
  | none => false
  | some s => !(s == "")

/-- Python `s.strip()`: remove leading and trailing whitespace. -/
def pyStrip (s : String) : String :=
  ⟨((s.data.dropWhile Char.isWhitespace).reverse.dropWhile Char.isWhitespace).reverse⟩

/-- `GOOGLE_SHEET_ID` constant from the configuration block. -/
def GOOGLE_SHEET_ID : String := "12vuVG0jTs5GUFaywj3piz6zk44X92JeB"

/-- `PROCESSED_FOLDER_ID` constant from the configuration block. -/
def PROCESSED_FOLDER_ID : String := "1fI7QAr1MwJlh4FTJGezb5LTXGDqMpmXT"

/-- `get_id_from_url`: last path component of the URL, up to a query string. -/
def get_id_from_url (url : String) : String :=
  (((url.splitOn "/").getLastD "").splitOn "?").headD ""

/-- The canonical 47-entry header row `header_keys` written by
`write_to_google_sheets` when the sheet has no headers yet. -/
def header_keys : List String :=
  ["Date", "POC Name", "Society Name", "Visit Type", "Meeting Type",
   "Amount Value", "Months", "Deal Status", "Vendor Leads", "Society Leads",
   "Opening Pitch Score", "Product Pitch Score",
   "Cross-Sell / Opportunity Handling", "Closing Effectiveness",
   "Negotiation Strength", "Overall Sentiment", "Total Score", "% Score",
   "Risks / Unresolved Issues", "Improvements Needed", "Owner", "Email Id",
   "Kibana ID", "Manager", "Product Pitch", "Team", "Media Link", "Doc Link",
   "Suggestions & Missed Topics", "Pre-meeting brief", "Meeting duration (min)",
   "Rebuttal Handling", "Rapport Building", "Improvement Areas",
   "Product Knowledge Displayed", "Call Effectiveness and Control",
   "Next Step Clarity and Commitment", "Missed Opportunities",
   "Key Discussion Points", "Key Questions", "Competition Discussion",
   "Action items", "Positive Factors", "Negative Factors", "Customer Needs",
   "Overall Client Sentiment", "Feature Checklist Coverage"]

/-! ## Credential Provider (`authenticate_google_services`) -/

/-- Opaque handle to the Drive API client returned by `build`. -/
structure DriveService where
  mk' ::
deriving DecidableEq

/-- Opaque handle to the gspread client returned by `gspread.authorize`. -/
structure GspreadClient where
  mk' ::
deriving DecidableEq

/-- Oracle for whether building credentials/clients (the
`from_service_account_info` / `build` / `gspread.authorize` calls) raises. -/
inductive BuildOutcome
  | ok
  | fail
deriving DecidableEq

/-- `authenticate_google_services`.  `gcpKey` is the `GCP_SA_KEY`
environment value; `parseCreds` says whether `json.loads` succeeds on the
secret.  Any failure is caught by the function's own handler, which
returns the pair `(None, None)`. -/
def authenticate_google_services (gcpKey : Option String)
    (parseCreds : String → Bool) (b : BuildOutcome) :
    Option DriveService × Option GspreadClient :=
  if !(optTruthy gcpKey) then (none, none)
  else if !(parseCreds (gcpKey.getD "")) then (none, none)
  else
    match b with
    | .fail => (none, none)
    | .ok => (some ⟨⟩, some ⟨⟩)

/-! ## Transcriber (`transcribe_audio`) -/

/-- Oracle for `temp_file.write(file_content.read())`: the write to the
temporary file either succeeds or raises. -/
inductive WriteOutcome
  | ok
  | fail
deriving DecidableEq

/-- Oracle for the speech-to-text phase: model initialisation and
`model.transcribe` either yield the texts of the returned segments or
raise. -/
inductive WhisperOutcome
  | segments (segs : List String)
  | fail
deriving DecidableEq

/-- `transcribe_audio`, threading the set of existing file-system paths.
The temporary file at `tempPath` is created first (`NamedTemporaryFile`
with `delete=False`); then the buffer is written to it; the try/finally
block covers only the transcription phase, whose `finally` runs
`os.remove`.  The second component is `Except.error` when an exception
escapes to the caller, `Except.ok none` when the internal handler turned a
transcription failure into `None`, and `Except.ok (some t)` on success. -/
def transcribe_audio (fs : List String) (tempPath : String)
    (w : WriteOutcome) (t : WhisperOutcome) :
    List String × Except String (Option String) :=
  let fs1 := tempPath :: fs
  match w with
  | .fail => (fs1, Except.error "temp file write failed")
  | .ok =>
    let result : Option String :=
      match t with
      | .segments segs => some (pyStrip (String.intercalate " " segs))
      | .fail => none
    (fs1.erase tempPath, Except.ok result)

/-- Modelled from the spec (§4.3), for refinement comparison only:
"concatenates returned text segments with single-space separators, trims
surrounding whitespace". -/
def spec_concat : List String → String
  | [] => ""
  | s :: rest => rest.foldl (fun acc t => acc ++ " " ++ t) s

/-- The transcript the spec describes: spec-side concatenation, stripped. -/
def spec_transcript (segs : List String) : String := pyStrip (spec_concat segs)

/-! ## Analyzer (`analyze_transcript_with_gemini`) -/

/-- Oracle for `model.generate_content`: either a raw text payload or a
raised exception. -/
inductive GeminiOutcome
  | response (text : String)
  | fail
deriving DecidableEq

/-- `analyze_transcript_with_gemini`.  `geminiKey` is the `GEMINI_API_KEY`
environment value; `parse` is `json.loads` on the response text (`none`
when it raises, i.e. the text is not valid JSON).  Every failure path is
caught and becomes `none`; a successful parse is returned unchanged. -/
def analyze_transcript_with_gemini (geminiKey : Option String)
    (parse : String → Option Record) (_transcript _ownerName : String)
    (g : GeminiOutcome) : Option Record :=
  if !(optTruthy geminiKey) then none
  else
    match g with
    | .fail => none
    | .response text => parse text

/-! ## Sheet Writer (`write_to_google_sheets`) -/

/-- The worksheet: an ordered list of rows, each a list of cells.
`rows = []` is the empty sheet. -/
structure SheetsState where
  rows : List (List String)
deriving DecidableEq

/-- gspread `worksheet.row_values(n)` (1-based); `[]` for a missing row. -/
def row_values (ws : SheetsState) (n : Nat) : List String :=
  ws.rows.getD (n - 1) []

/-- Oracle for the spreadsheet calls inside `write_to_google_sheets`:
everything succeeds, or `open_by_key`/`get_worksheet`/`row_values` raises
before anything is written, or the final data-row `append_row` raises
after the header logic ran. -/
inductive SheetFault
  | ok
  | openFail
  | appendFail
deriving DecidableEq

/-- `write_to_google_sheets`.  Reads row 1; if it is empty, appends the
canonical `header_keys` row first; then appends the record projected onto
the header order, each missing key defaulting to `"N/A"`.  The whole body
is wrapped in try/except, so the caller sees only the resulting sheet
state and never an exception. -/
def write_to_google_sheets (fault : SheetFault) (st : SheetsState)
    (data : Record) : SheetsState :=
  match fault with
  | .openFail => st
  | _ =>
    let headers := row_values st 1
    let (st1, headers) :=
      if headers.isEmpty then
        ({ rows := st.rows ++ [header_keys] }, header_keys)
      else (st, headers)
    match fault with
    | .appendFail => st1
    | _ =>
      let row_to_insert := headers.map (fun h => recGet data h "N/A")
      { rows := st1.rows ++ [row_to_insert] }

/-- The header list `write_to_google_sheets` projects the record onto:
row 1 as read when it is non-empty, the canonical `header_keys` it just
wrote otherwise. -/
def effectiveHeaders (st : SheetsState) : List String :=
  if (row_values st 1).isEmpty then header_keys else row_values st 1

/-- Iterate `write_to_google_sheets` (fault-free) over a list of records,
counting how many invocations wrote the header row (the source writes the
header exactly when `row_values(1)` came back empty). -/
def writeSeqCount : SheetsState → List Record → SheetsState × Nat
  | st, [] => (st, 0)
  | st, d :: ds =>
    let wrote := (row_values st 1).isEmpty
    let st1 := write_to_google_sheets SheetFault.ok st d
    let r := writeSeqCount st1 ds
    (r.1, (if wrote then 1 else 0) + r.2)

/-! ## Orchestrator (`main`) -/

/-- Per-file environment: the identity of the file plus the oracles for
each external call made while processing it. -/
structure FileEnv where
  fileId : String
  fileName : String
  downloadOk : Bool
  writeOutcome : WriteOutcome
  whisper : WhisperOutcome
  gemini : GeminiOutcome
  parse : String → Option Record
  sheetFault : SheetFault
  moveOk : Bool

/-- Observable outcome of processing one file: which pipeline stages were
invoked, whether the fixed 20-second sleep ran, where the file ended up,
and the resulting sheet state. -/
structure FileResult where
  transcriberInvoked : Bool
  analyzerInvoked : Bool
  sheetWriterInvoked : Bool
  archiverInvoked : Bool
  slept : Bool
  location : String
  sheet : SheetsState
deriving DecidableEq

/-- The transcription result for a file environment (fresh temp file). -/
def transcriptOf (env : FileEnv) : Except String (Option String) :=
  (transcribe_audio [] env.fileName env.writeOutcome env.whisper).2

/-- The body of the per-file loop in `main` (download → transcribe →
`if transcript:` → analyze → `if analysis_data:` → write + move →
`time.sleep(20)`), with the surrounding per-file `try/except` catching any
exception raised by download or transcription.  Both guards are Python
truthiness checks: `if transcript:` is false for `None` and for the empty
string, and `if analysis_data:` is false for `None` and for the empty
dict (a valid-JSON response text of two braces parses to an empty dict and
skips write + archive while the sleep, outside that guard, still runs). -/
def process_file (geminiKey : Option String) (member folderId : String)
    (env : FileEnv) (sheet : SheetsState) : FileResult :=
  if !env.downloadOk then
    ⟨false, false, false, false, false, folderId, sheet⟩
  else
    match transcriptOf env with
    | Except.error _ => ⟨true, false, false, false, false, folderId, sheet⟩
    | Except.ok transcript =>
      if optTruthy transcript then
        match analyze_transcript_with_gemini geminiKey env.parse
            (transcript.getD "") member env.gemini with
        | none => ⟨true, true, false, false, true, folderId, sheet⟩
        | some data =>
          if !data.isEmpty then
            let sheet2 := write_to_google_sheets env.sheetFault sheet data
            ⟨true, true, true, true, true,
              if env.moveOk then PROCESSED_FOLDER_ID else folderId, sheet2⟩
          else
            ⟨true, true, false, false, true, folderId, sheet⟩
      else
        ⟨true, false, false, false, false, folderId, sheet⟩

/-- The inner `for file in files` loop: every file yields a result, and the
sheet state is threaded through. -/
def process_files (geminiKey : Option String) (member folderId : String) :
    List FileEnv → SheetsState → List FileResult × SheetsState
  | [], sheet => ([], sheet)
  | env :: rest, sheet =>
    let r := process_file geminiKey member folderId env sheet
    let rs := process_files geminiKey member folderId rest r.sheet
    (r :: rs.1, rs.2)

/-- Per-folder environment: the team member, their folder id, and the
outcome of the Drive list query (`none` when the query raises). -/
structure FolderEnv where
  member : String
  folderId : String
  listing : Option (List FileEnv)

/-- The `for member_name, folder_id in TEAM_FOLDERS` loop: one list call
per folder; a raised list call is caught at the folder level and skips to
the next folder. Returns (number of list calls, all file results, sheet). -/
def run_folders (geminiKey : Option String) :
    List FolderEnv → SheetsState → Nat × List FileResult × SheetsState
  | [], sheet => (0, [], sheet)
  | f :: fs, sheet =>
    match f.listing with
    | none =>
      let r := run_folders geminiKey fs sheet
      (r.1 + 1, r.2.1, r.2.2)
    | some files =>
      let pf := process_files geminiKey f.member f.folderId files sheet
      let r := run_folders geminiKey fs pf.2
      (r.1 + 1, pf.1 ++ r.2.1, r.2.2)

/-- Observable outcome of a whole run of `main`. -/
structure RunResult where
  listCalls : Nat
  fileResults : List FileResult
  sheet : SheetsState
deriving DecidableEq

/-- `main`: check the static ids, authenticate, and on success drive the
folder loop; an authentication failure aborts the run before any folder
is listed. -/
def main_run (gcpKey : Option String) (parseCreds : String → Bool)
    (b : BuildOutcome) (geminiKey : Option String)
    (folders : List FolderEnv) (sheet : SheetsState) : RunResult :=
  if GOOGLE_SHEET_ID == "" || PROCESSED_FOLDER_ID == "" then
    ⟨0, [], sheet⟩
  else
    match authenticate_google_services gcpKey parseCreds b with
    | (some _, some _) =>
      let r := run_folders geminiKey folders sheet
      ⟨r.1, r.2.1, r.2.2⟩
    | _ => ⟨0, [], sheet⟩

/-! ## Helper lemmas -/

theorem recGet_not_mem (data : Record) (key dflt : String)
    (h : key ∉ data.map Prod.fst) : recGet data key dflt = dflt := by
  unfold recGet
  have hf : data.find? (fun p => p.1 == key) = none := by
    apply List.find?_eq_none.mpr
    intro x hx
    simp only [beq_iff_eq]
    intro heq
    exact h (heq ▸ List.mem_map_of_mem Prod.fst hx)
  rw [hf]

theorem write_ok_rows (st : SheetsState) (data : Record) :
    (write_to_google_sheets SheetFault.ok st data).rows
      = if (row_values st 1).isEmpty then
          st.rows ++ [header_keys, header_keys.map (fun h => recGet data h "N/A")]
        else
          st.rows ++ [(row_values st 1).map (fun h => recGet data h "N/A")] := by
  unfold write_to_google_sheets
  by_cases h : (row_values st 1).isEmpty <;> simp [h]

theorem row1_nonempty_of_ne (st : SheetsState) (h : ¬ (row_values st 1).isEmpty) :
    st.rows ≠ [] := by
  intro hnil
  apply h
  simp [row_values, hnil]

theorem row_values_one_append (l : List (List String)) (l' : List (List String))
    (h : l ≠ []) : row_values ⟨l ++ l'⟩ 1 = row_values ⟨l⟩ 1 := by
  unfold row_values
  simp only [Nat.sub_self]
  cases l with
  | nil => exact absurd rfl h
  | cons a as => simp

theorem write_ok_row1_preserved (st : SheetsState) (data : Record)
    (h : ¬ (row_values st 1).isEmpty) :
    row_values (write_to_google_sheets SheetFault.ok st data) 1 = row_values st 1 := by
  have hr := write_ok_rows st data
  rw [if_neg h] at hr
  have hne := row1_nonempty_of_ne st h
  calc row_values (write_to_google_sheets SheetFault.ok st data) 1
      = row_values ⟨st.rows ++ [(row_values st 1).map (fun h => recGet data h "N/A")]⟩ 1 := by
        rw [← hr]
    _ = row_values ⟨st.rows⟩ 1 := row_values_one_append st.rows _ hne
    _ = row_values st 1 := rfl

theorem header_keys_ne_nil : header_keys.isEmpty = false := by decide

theorem writeSeqCount_zero (ds : List Record) :
    ∀ st : SheetsState, row_values st 1 = header_keys → (writeSeqCount st ds).2 = 0 := by
  induction ds with
  | nil => intro st _; rfl
  | cons d ds ih =>
    intro st hst
    have hne : ¬ (row_values st 1).isEmpty := by
      rw [hst, header_keys_ne_nil]; simp
    have hpres := write_ok_row1_preserved st d hne
    unfold writeSeqCount
    simp only [hst, header_keys_ne_nil, if_neg]
    have := ih (write_to_google_sheets SheetFault.ok st d) (by rw [hpres, hst])
    simp [this, hst, header_keys_ne_nil]

/-! ## Claim theorems -/

/-- C1: for every header list read (or just written) from the sheet and
every Analysis Record, the row the Sheet Writer appends has exactly one
cell per header, in the same order as the header row, each cell being the
record's value for that header name, and every header name not present in
the record yielding the literal string "N/A". -/
theorem sheet_writer_row_matches_headers (st : SheetsState) (data : Record) :
    (write_to_google_sheets SheetFault.ok st data).rows.getLast?
      = some ((effectiveHeaders st).map (fun h => recGet data h "N/A")) ∧
    ((effectiveHeaders st).map (fun h => recGet data h "N/A")).length
      = (effectiveHeaders st).length ∧
    (∀ (i : Nat) (h : String), (effectiveHeaders st)[i]? = some h →
      ((effectiveHeaders st).map (fun h => recGet data h "N/A"))[i]?
        = some (recGet data h "N/A")) ∧
    (∀ h, h ∉ data.map Prod.fst → recGet data h "N/A" = "N/A") := by
  refine ⟨?_, ?_, ?_, ?_⟩
  · rw [write_ok_rows]
    unfold effectiveHeaders
    by_cases hh : (row_values st 1).isEmpty
    · rw [if_pos hh, if_pos hh, show st.rows ++ [header_keys, header_keys.map
        (fun h => recGet data h "N/A")] = (st.rows ++ [header_keys]) ++
        [header_keys.map (fun h => recGet data h "N/A")] by simp]
      exact List.getLast?_concat _
    · rw [if_neg hh, if_neg hh]
      exact List.getLast?_concat _
  · exact List.length_map _ _
  · intro i h hi
    simp [List.getElem?_map, hi]
  · intro h hm
    exact recGet_not_mem data h "N/A" hm

/-- C1 witness: instantiation at a sheet with headers ["A", "B"] and a
record containing only key "A". -/
theorem sheet_writer_row_matches_headers_witness :
    (write_to_google_sheets SheetFault.ok ⟨[["A", "B"]]⟩ [("A", "x")]).rows.getLast?
      = some ((effectiveHeaders ⟨[["A", "B"]]⟩).map
          (fun h => recGet [("A", "x")] h "N/A")) ∧
    ((effectiveHeaders ⟨[["A", "B"]]⟩).map (fun h => recGet [("A", "x")] h "N/A")).length
      = (effectiveHeaders ⟨[["A", "B"]]⟩).length ∧
    (∀ (i : Nat) (h : String), (effectiveHeaders ⟨[["A", "B"]]⟩)[i]? = some h →
      ((effectiveHeaders ⟨[["A", "B"]]⟩).map (fun h => recGet [("A", "x")] h "N/A"))[i]?
        = some (recGet [("A", "x")] h "N/A")) ∧
    (∀ h, h ∉ ([("A", "x")] : Record).map Prod.fst →
      recGet [("A", "x")] h "N/A" = "N/A") :=
  sheet_writer_row_matches_headers ⟨[["A", "B"]]⟩ [("A", "x")]

/-- C2: the Sheet Writer writes the canonical header row exactly when row 1
is empty; against a sheet whose row 1 is non-empty it appends only the
data row, leaving row 1 unchanged; and over any sequence of invocations
starting from the empty sheet the header row is written exactly once. -/
theorem sheet_writer_header_once (st : SheetsState) (data d : Record)
    (ds : List Record) :
    (¬ (row_values st 1).isEmpty →
      (write_to_google_sheets SheetFault.ok st data).rows
        = st.rows ++ [(row_values st 1).map (fun h => recGet data h "N/A")] ∧
      row_values (write_to_google_sheets SheetFault.ok st data) 1
        = row_values st 1) ∧
    ((row_values st 1).isEmpty →
      (write_to_google_sheets SheetFault.ok st data).rows
        = st.rows ++ [header_keys, header_keys.map (fun h => recGet data h "N/A")]) ∧
    (writeSeqCount ⟨[]⟩ (d :: ds)).2 = 1 := by
  refine ⟨fun h => ⟨?_, write_ok_row1_preserved st data h⟩, fun h => ?_, ?_⟩
  · rw [write_ok_rows, if_neg h]
  · rw [write_ok_rows, if_pos h]
  · have h1 : row_values (⟨[]⟩ : SheetsState) 1 = [] := rfl
    have hw : (row_values (write_to_google_sheets SheetFault.ok ⟨[]⟩ d) 1)
        = header_keys := by
      rw [show write_to_google_sheets SheetFault.ok ⟨[]⟩ d
          = ⟨(write_to_google_sheets SheetFault.ok ⟨[]⟩ d).rows⟩ from rfl,
        write_ok_rows]
      simp [h1, row_values]
    have hz := writeSeqCount_zero ds _ hw
    simp [writeSeqCount, hz, h1]

/-- C2 witness: instantiation at a headered sheet, plus a two-record
sequence on a fresh sheet. -/
theorem sheet_writer_header_once_witness :
    (¬ (row_values ⟨[["H"]]⟩ 1).isEmpty →
      (write_to_google_sheets SheetFault.ok ⟨[["H"]]⟩ []).rows
        = [["H"]] ++ [(row_values ⟨[["H"]]⟩ 1).map (fun h => recGet [] h "N/A")] ∧
      row_values (write_to_google_sheets SheetFault.ok ⟨[["H"]]⟩ []) 1
        = row_values ⟨[["H"]]⟩ 1) ∧
    ((row_values ⟨[["H"]]⟩ 1).isEmpty →
      (write_to_google_sheets SheetFault.ok ⟨[["H"]]⟩ []).rows
        = [["H"]] ++ [header_keys, header_keys.map (fun h => recGet [] h "N/A")]) ∧
    (writeSeqCount ⟨[]⟩ ([] :: [[]])).2 = 1 :=
  sheet_writer_header_once ⟨[["H"]]⟩ [] [] [[]]

/-- C3 (counterexample): a concrete run in which the write of the buffer
to the temporary file fails: the temporary file was created and is still
present when `transcribe_audio` exits, so the file is not deleted on every
exit path. -/
theorem transcriber_temp_leak_cex :
    "rec.mp3" ∈ (transcribe_audio [] "rec.mp3" WriteOutcome.fail WhisperOutcome.fail).1 := by
  simp [transcribe_audio]

/-- C3 (amended): whenever the buffer write to the temporary file
succeeds, the Transcriber deletes the temporary file on every exit path of
the transcription phase — success or failure of model initialisation /
transcription — restoring the file system exactly; when the buffer write
itself fails, the exception propagates and the temporary file is left
behind. -/
theorem transcriber_temp_cleanup (fs : List String) (tempPath : String)
    (t : WhisperOutcome) :
    (transcribe_audio fs tempPath WriteOutcome.ok t).1 = fs ∧
    (transcribe_audio fs tempPath WriteOutcome.fail t).1 = tempPath :: fs := by
  constructor
  · show (tempPath :: fs).erase tempPath = fs
    exact List.erase_cons_head tempPath fs
  · rfl

/-- C4 (counterexample): a file whose download and transcription were
attempted (partially processed) but whose transcription failed: the
20-second wait is skipped, so the wait is not unconditional. -/
theorem inter_file_wait_skipped_cex :
    (process_file (some "k") "Sharath" "folder1"
        ⟨"id1", "a.mp3", true, WriteOutcome.ok, WhisperOutcome.fail,
          GeminiOutcome.fail, fun _ => none, SheetFault.ok, true⟩
        ⟨[]⟩).transcriberInvoked = true ∧
    (process_file (some "k") "Sharath" "folder1"
        ⟨"id1", "a.mp3", true, WriteOutcome.ok, WhisperOutcome.fail,
          GeminiOutcome.fail, fun _ => none, SheetFault.ok, true⟩
        ⟨[]⟩).slept = false := by
  constructor <;> rfl

/-- C4 (amended): the fixed 20-second wait runs after a file exactly when
the download succeeded and transcription returned a non-empty transcript —
in particular even when the analysis step was skipped because the analyzer
returned null — and it is skipped when the download failed, transcription
raised, or transcription produced a null or empty transcript. -/
theorem inter_file_wait_iff_transcript (geminiKey : Option String)
    (member folderId : String) (env : FileEnv) (sheet : SheetsState) :
    (process_file geminiKey member folderId env sheet).slept
      = (env.downloadOk &&
          (match transcriptOf env with
           | Except.ok t => optTruthy t
           | Except.error _ => false)) := by
  unfold process_file
  cases hd : env.downloadOk
  · simp
  · simp only [Bool.not_true, Bool.true_and]
    cases ht : transcriptOf env with
    | error e => rfl
    | ok tr =>
      cases htr : optTruthy tr
      · simp [htr]
      · simp only [htr, if_true]
        cases analyze_transcript_with_gemini geminiKey env.parse (tr.getD "") member env.gemini with
        | none => rfl
        | some data => cases h : data.isEmpty <;> simp [h]

/-- C8: on a successful transcription, the returned transcript is exactly
the segments' texts concatenated with single-space separators and stripped
of surrounding whitespace (the spec-side description). -/
theorem transcript_concatenation_spec (fs : List String) (p : String)
    (segs : List String) :
    (transcribe_audio fs p WriteOutcome.ok (WhisperOutcome.segments segs)).2
      = Except.ok (some (spec_transcript segs)) := by
  have hgo : ∀ (l : List String) (acc : String),
      String.intercalate.go acc " " l = l.foldl (fun acc t => acc ++ " " ++ t) acc := by
    intro l
    induction l with
    | nil => intro acc; rfl
    | cons b bs ih => intro acc; rw [String.intercalate.go]; simp [ih]
  have hic : String.intercalate " " segs = spec_concat segs := by
    cases segs with
    | nil => rfl
    | cons a as => rw [String.intercalate, hgo, spec_concat]
  simp [transcribe_audio, spec_transcript, hic]

/-! ## Characterisation of the per-file pipeline -/

theorem process_file_no_download (gk : Option String) (member folderId : String)
    (env : FileEnv) (sheet : SheetsState) (h : env.downloadOk = false) :
    process_file gk member folderId env sheet
      = ⟨false, false, false, false, false, folderId, sheet⟩ := by
  unfold process_file
  simp [h]

theorem process_file_transcribe_raises (gk : Option String)
    (member folderId : String) (env : FileEnv) (sheet : SheetsState)
    (e : String) (hd : env.downloadOk = true)
    (ht : transcriptOf env = Except.error e) :
    process_file gk member folderId env sheet
      = ⟨true, false, false, false, false, folderId, sheet⟩ := by
  unfold process_file
  rw [hd, ht]
  rfl

theorem process_file_falsy_transcript (gk : Option String)
    (member folderId : String) (env : FileEnv) (sheet : SheetsState)
    (tr : Option String) (hd : env.downloadOk = true)
    (ht : transcriptOf env = Except.ok tr) (htr : optTruthy tr = false) :
    process_file gk member folderId env sheet
      = ⟨true, false, false, false, false, folderId, sheet⟩ := by
  unfold process_file
  rw [hd, ht]
  simp [htr]

theorem process_file_no_analysis (gk : Option String)
    (member folderId : String) (env : FileEnv) (sheet : SheetsState)
    (tr : Option String) (hd : env.downloadOk = true)
    (ht : transcriptOf env = Except.ok tr) (htr : optTruthy tr = true)
    (ha : analyze_transcript_with_gemini gk env.parse (tr.getD "") member env.gemini
      = none) :
    process_file gk member folderId env sheet
      = ⟨true, true, false, false, true, folderId, sheet⟩ := by
  unfold process_file
  rw [hd, ht]
  simp only [htr, if_true]
  rw [ha]
  rfl

theorem process_file_analysis (gk : Option String)
    (member folderId : String) (env : FileEnv) (sheet : SheetsState)
    (tr : Option String) (data : Record) (hd : env.downloadOk = true)
    (ht : transcriptOf env = Except.ok tr) (htr : optTruthy tr = true)
    (ha : analyze_transcript_with_gemini gk env.parse (tr.getD "") member env.gemini
      = some data) (hne : data.isEmpty = false) :
    process_file gk member folderId env sheet
      = ⟨true, true, true, true, true,
          if env.moveOk then PROCESSED_FOLDER_ID else folderId,
          write_to_google_sheets env.sheetFault sheet data⟩ := by
  unfold process_file
  rw [hd, ht]
  simp only [htr, if_true]
  rw [ha]
  simp [hne]

theorem process_file_empty_analysis (gk : Option String)
    (member folderId : String) (env : FileEnv) (sheet : SheetsState)
    (tr : Option String) (hd : env.downloadOk = true)
    (ht : transcriptOf env = Except.ok tr) (htr : optTruthy tr = true)
    (ha : analyze_transcript_with_gemini gk env.parse (tr.getD "") member env.gemini
      = some []) :
    process_file gk member folderId env sheet
      = ⟨true, true, false, false, true, folderId, sheet⟩ := by
  unfold process_file
  rw [hd, ht]
  simp only [htr, if_true]
  rw [ha]
  rfl

/-- C5: a model response whose text is not valid JSON makes the Analyzer
return null; the Orchestrator then invokes neither the Sheet Writer nor
the Archiver and leaves the file in its source folder with the sheet
untouched; a valid-JSON response is returned exactly as parsed, with
nothing substituted. -/
theorem analyzer_invalid_json_null (k : String) (hk : k ≠ "")
    (parse : String → Option Record) (text tr owner : String)
    (geminiKey : Option String) (member folderId : String)
    (env : FileEnv) (sheet : SheetsState) :
    (parse text = none →
      analyze_transcript_with_gemini (some k) parse tr owner
        (GeminiOutcome.response text) = none) ∧
    (∀ v, parse text = some v →
      analyze_transcript_with_gemini (some k) parse tr owner
        (GeminiOutcome.response text) = some v) ∧
    ((∀ t, analyze_transcript_with_gemini geminiKey env.parse t member env.gemini
        = none) →
      (process_file geminiKey member folderId env sheet).sheetWriterInvoked = false ∧
      (process_file geminiKey member folderId env sheet).archiverInvoked = false ∧
      (process_file geminiKey member folderId env sheet).location = folderId ∧
      (process_file geminiKey member folderId env sheet).sheet = sheet) := by
  refine ⟨?_, ?_, ?_⟩
  · intro hp
    simp [analyze_transcript_with_gemini, optTruthy, hk, hp]
  · intro v hp
    simp [analyze_transcript_with_gemini, optTruthy, hk, hp]
  · intro h
    cases hd : env.downloadOk
    · rw [process_file_no_download _ _ _ _ _ hd]
      exact ⟨rfl, rfl, rfl, rfl⟩
    · cases ht : transcriptOf env with
      | error e =>
        rw [process_file_transcribe_raises _ _ _ _ _ e hd ht]
        exact ⟨rfl, rfl, rfl, rfl⟩
      | ok tr =>
        cases htr : optTruthy tr
        · rw [process_file_falsy_transcript _ _ _ _ _ tr hd ht htr]
          exact ⟨rfl, rfl, rfl, rfl⟩
        · rw [process_file_no_analysis _ _ _ _ _ tr hd ht htr (h _)]
          exact ⟨rfl, rfl, rfl, rfl⟩

/-- C5 witness: a response "x" with a failing parse yields null, and a
pipeline run whose analyzer yields null (model call raised) neither
writes nor archives. -/
theorem analyzer_invalid_json_null_witness :
    analyze_transcript_with_gemini (some "key") (fun _ => none) "t" "o"
        (GeminiOutcome.response "x") = none ∧
    (process_file (some "k2") "m" "f"
        ⟨"id", "a.mp3", true, WriteOutcome.ok, WhisperOutcome.segments ["hi"],
          GeminiOutcome.fail, fun _ => none, SheetFault.ok, true⟩
        ⟨[]⟩).sheetWriterInvoked = false ∧
    (process_file (some "k2") "m" "f"
        ⟨"id", "a.mp3", true, WriteOutcome.ok, WhisperOutcome.segments ["hi"],
          GeminiOutcome.fail, fun _ => none, SheetFault.ok, true⟩
        ⟨[]⟩).archiverInvoked = false :=
  ⟨(analyzer_invalid_json_null "key" (by decide) (fun _ => none) "x" "t" "o"
      (some "k2") "m" "f"
      ⟨"id", "a.mp3", true, WriteOutcome.ok, WhisperOutcome.segments ["hi"],
        GeminiOutcome.fail, fun _ => none, SheetFault.ok, true⟩ ⟨[]⟩).1 rfl,
   ((analyzer_invalid_json_null "key" (by decide) (fun _ => none) "x" "t" "o"
      (some "k2") "m" "f"
      ⟨"id", "a.mp3", true, WriteOutcome.ok, WhisperOutcome.segments ["hi"],
        GeminiOutcome.fail, fun _ => none, SheetFault.ok, true⟩ ⟨[]⟩).2.2
      (fun _ => rfl)).1,
   ((analyzer_invalid_json_null "key" (by decide) (fun _ => none) "x" "t" "o"
      (some "k2") "m" "f"
      ⟨"id", "a.mp3", true, WriteOutcome.ok, WhisperOutcome.segments ["hi"],
        GeminiOutcome.fail, fun _ => none, SheetFault.ok, true⟩ ⟨[]⟩).2.2
      (fun _ => rfl)).2.1⟩

/-- C6 (counterexample): when the write of the buffer to the temporary
file fails, the Transcriber raises to its caller instead of returning a
null transcript. -/
theorem transcriber_write_failure_raises_cex :
    (transcribe_audio [] "a.mp3" WriteOutcome.fail
        (WhisperOutcome.segments ["hi"])).2
      = Except.error "temp file write failed" := rfl

/-- C6 (amended): when the transcription phase fails, the Transcriber
returns a null transcript without raising; the Orchestrator then skips
the Analyzer, Sheet Writer and Archiver for that file; and the per-file
loop always yields one result per file, so no per-file failure (even a
raising one, such as a failed buffer write) halts the run. -/
theorem transcriber_failure_skips_downstream (fs : List String) (p : String)
    (geminiKey : Option String) (member folderId : String) (env : FileEnv)
    (sheet : SheetsState) (envs : List FileEnv) :
    (transcribe_audio fs p WriteOutcome.ok WhisperOutcome.fail).2
      = Except.ok none ∧
    (env.whisper = WhisperOutcome.fail →
      (process_file geminiKey member folderId env sheet).analyzerInvoked = false ∧
      (process_file geminiKey member folderId env sheet).sheetWriterInvoked = false ∧
      (process_file geminiKey member folderId env sheet).archiverInvoked = false) ∧
    (process_files geminiKey member folderId envs sheet).1.length = envs.length := by
  refine ⟨rfl, ?_, ?_⟩
  · intro hw
    cases hd : env.downloadOk
    · rw [process_file_no_download _ _ _ _ _ hd]
      exact ⟨rfl, rfl, rfl⟩
    · cases hwo : env.writeOutcome
      · have ht : transcriptOf env = Except.ok none := by
          simp [transcriptOf, transcribe_audio, hwo, hw]
        rw [process_file_falsy_transcript _ _ _ _ _ none hd ht rfl]
        exact ⟨rfl, rfl, rfl⟩
      · have ht : transcriptOf env = Except.error "temp file write failed" := by
          simp [transcriptOf, transcribe_audio, hwo]
        rw [process_file_transcribe_raises _ _ _ _ _ _ hd ht]
        exact ⟨rfl, rfl, rfl⟩
  · induction envs generalizing sheet with
    | nil => rfl
    | cons e es ih =>
      unfold process_files
      simp [ih]

/-- C6 witness: a file whose speech-to-text phase fails is skipped
downstream. -/
theorem transcriber_failure_skips_downstream_witness :
    (process_file (some "k") "m" "f"
        ⟨"id", "a.mp3", true, WriteOutcome.ok, WhisperOutcome.fail,
          GeminiOutcome.fail, fun _ => none, SheetFault.ok, true⟩
        ⟨[]⟩).analyzerInvoked = false ∧
    (process_file (some "k") "m" "f"
        ⟨"id", "a.mp3", true, WriteOutcome.ok, WhisperOutcome.fail,
          GeminiOutcome.fail, fun _ => none, SheetFault.ok, true⟩
        ⟨[]⟩).sheetWriterInvoked = false ∧
    (process_file (some "k") "m" "f"
        ⟨"id", "a.mp3", true, WriteOutcome.ok, WhisperOutcome.fail,
          GeminiOutcome.fail, fun _ => none, SheetFault.ok, true⟩
        ⟨[]⟩).archiverInvoked = false :=
  (transcriber_failure_skips_downstream [] "p" (some "k") "m" "f"
    ⟨"id", "a.mp3", true, WriteOutcome.ok, WhisperOutcome.fail,
      GeminiOutcome.fail, fun _ => none, SheetFault.ok, true⟩ ⟨[]⟩ []).2.1 rfl

/-- C7: the Credential Provider returns the pair (null, null) whenever the
service-account secret is absent (or empty) in the environment or fails
to parse, and the Orchestrator treats any null result as fatal: the run
performs no folder listing and processes no files, leaving the sheet
untouched. -/
theorem auth_failure_fatal (gcpKey : Option String) (parseCreds : String → Bool)
    (b : BuildOutcome) (geminiKey : Option String) (folders : List FolderEnv)
    (sheet : SheetsState) :
    ((optTruthy gcpKey = false ∨ parseCreds (gcpKey.getD "") = false) →
      authenticate_google_services gcpKey parseCreds b = (none, none)) ∧
    (authenticate_google_services gcpKey parseCreds b = (none, none) →
      main_run gcpKey parseCreds b geminiKey folders sheet = ⟨0, [], sheet⟩) := by
  constructor
  · rintro (h | h)
    · simp [authenticate_google_services, h]
    · unfold authenticate_google_services
      cases hk : optTruthy gcpKey
      · simp
      · simp [h]
  · intro h
    unfold main_run
    have hids : (GOOGLE_SHEET_ID == "" || PROCESSED_FOLDER_ID == "") = false := by
      decide
    rw [hids, h]
    rfl

/-- C7 witness: with the secret absent from the environment,
authentication yields (null, null) and the whole run is aborted before
any listing. -/
theorem auth_failure_fatal_witness :
    ((optTruthy none = false ∨ (fun _ => true) ((none : Option String).getD "") = false) →
      authenticate_google_services none (fun _ => true) BuildOutcome.ok = (none, none)) ∧
    (authenticate_google_services none (fun _ => true) BuildOutcome.ok = (none, none) →
      main_run none (fun _ => true) BuildOutcome.ok (some "g") [] ⟨[]⟩ = ⟨0, [], ⟨[]⟩⟩) :=
  auth_failure_fatal none (fun _ => true) BuildOutcome.ok (some "g") [] ⟨[]⟩

/-- C9: a file whose transcription succeeds but returns the empty string
is treated like a failed transcription: Analyzer, Sheet Writer and
Archiver are all skipped, the inter-file wait is skipped too, the sheet
is untouched and the file stays in its source folder. -/
theorem empty_transcript_skips_pipeline (geminiKey : Option String)
    (member folderId : String) (env : FileEnv) (sheet : SheetsState)
    (h : transcriptOf env = Except.ok (some "")) :
    (process_file geminiKey member folderId env sheet).analyzerInvoked = false ∧
    (process_file geminiKey member folderId env sheet).sheetWriterInvoked = false ∧
    (process_file geminiKey member folderId env sheet).archiverInvoked = false ∧
    (process_file geminiKey member folderId env sheet).slept = false ∧
    (process_file geminiKey member folderId env sheet).location = folderId ∧
    (process_file geminiKey member folderId env sheet).sheet = sheet := by
  cases hd : env.downloadOk
  · rw [process_file_no_download _ _ _ _ _ hd]
    exact ⟨rfl, rfl, rfl, rfl, rfl, rfl⟩
  · rw [process_file_falsy_transcript _ _ _ _ _ (some "") hd h rfl]
    exact ⟨rfl, rfl, rfl, rfl, rfl, rfl⟩

/-- C9 witness: a transcription returning no segments yields the empty
transcript and the whole downstream pipeline (and the wait) is skipped. -/
theorem empty_transcript_skips_pipeline_witness :
    (process_file (some "k") "m" "f"
        ⟨"id", "a.mp3", true, WriteOutcome.ok, WhisperOutcome.segments [],
          GeminiOutcome.fail, fun _ => none, SheetFault.ok, true⟩
        ⟨[]⟩).analyzerInvoked = false ∧
    (process_file (some "k") "m" "f"
        ⟨"id", "a.mp3", true, WriteOutcome.ok, WhisperOutcome.segments [],
          GeminiOutcome.fail, fun _ => none, SheetFault.ok, true⟩
        ⟨[]⟩).sheetWriterInvoked = false ∧
    (process_file (some "k") "m" "f"
        ⟨"id", "a.mp3", true, WriteOutcome.ok, WhisperOutcome.segments [],
          GeminiOutcome.fail, fun _ => none, SheetFault.ok, true⟩
        ⟨[]⟩).archiverInvoked = false ∧
    (process_file (some "k") "m" "f"
        ⟨"id", "a.mp3", true, WriteOutcome.ok, WhisperOutcome.segments [],
          GeminiOutcome.fail, fun _ => none, SheetFault.ok, true⟩
        ⟨[]⟩).slept = false ∧
    (process_file (some "k") "m" "f"
        ⟨"id", "a.mp3", true, WriteOutcome.ok, WhisperOutcome.segments [],
          GeminiOutcome.fail, fun _ => none, SheetFault.ok, true⟩
        ⟨[]⟩).location = "f" ∧
    (process_file (some "k") "m" "f"
        ⟨"id", "a.mp3", true, WriteOutcome.ok, WhisperOutcome.segments [],
          GeminiOutcome.fail, fun _ => none, SheetFault.ok, true⟩
        ⟨[]⟩).sheet = ⟨[]⟩ :=
  empty_transcript_skips_pipeline (some "k") "m" "f"
    ⟨"id", "a.mp3", true, WriteOutcome.ok, WhisperOutcome.segments [],
      GeminiOutcome.fail, fun _ => none, SheetFault.ok, true⟩ ⟨[]⟩ rfl

/-- C10: whenever the analysis of a file succeeds with a truthy (non-empty)
record — the `if analysis_data:` guard treats `None` and the empty dict
alike as falsy — the Archiver is invoked regardless of the Sheet Writer's
internal fault state (the Sheet Writer catches every exception and returns
only the sheet state); in particular, in a concrete run where opening the
spreadsheet fails, the file is still moved to the processed folder while
no row was recorded. -/
theorem archiver_invoked_despite_sheet_failure (geminiKey : Option String)
    (member folderId s : String) (env : FileEnv) (sheet : SheetsState)
    (data : Record) :
    (env.downloadOk = true → transcriptOf env = Except.ok (some s) → s ≠ "" →
      analyze_transcript_with_gemini geminiKey env.parse s member env.gemini
        = some data →
      data ≠ [] →
      (process_file geminiKey member folderId env sheet).archiverInvoked = true) ∧
    ((process_file (some "k") "m" "f"
        ⟨"id", "a.mp3", true, WriteOutcome.ok, WhisperOutcome.segments ["hi"],
          GeminiOutcome.response "x", fun _ => some [("A", "1")],
          SheetFault.openFail, true⟩
        ⟨[["H"]]⟩).archiverInvoked = true ∧
     (process_file (some "k") "m" "f"
        ⟨"id", "a.mp3", true, WriteOutcome.ok, WhisperOutcome.segments ["hi"],
          GeminiOutcome.response "x", fun _ => some [("A", "1")],
          SheetFault.openFail, true⟩
        ⟨[["H"]]⟩).sheet = ⟨[["H"]]⟩ ∧
     (process_file (some "k") "m" "f"
        ⟨"id", "a.mp3", true, WriteOutcome.ok, WhisperOutcome.segments ["hi"],
          GeminiOutcome.response "x", fun _ => some [("A", "1")],
          SheetFault.openFail, true⟩
        ⟨[["H"]]⟩).location = PROCESSED_FOLDER_ID) := by
  constructor
  · intro hd ht hs ha hD
    have htr : optTruthy (some s) = true := by
      simp [optTruthy, hs]
    have hne : data.isEmpty = false := by
      cases data with
      | nil => exact absurd rfl hD
      | cons a as => rfl
    rw [process_file_analysis geminiKey member folderId env sheet (some s) data
      hd ht htr ha hne]
  · exact ⟨rfl, rfl, rfl⟩

/-- C10 witness: a successful analysis with a healthy sheet still invokes
the Archiver. -/
theorem archiver_invoked_despite_sheet_failure_witness :
    (process_file (some "k") "m2" "f2"
        ⟨"id2", "b.mp3", true, WriteOutcome.ok, WhisperOutcome.segments ["yo"],
          GeminiOutcome.response "y", fun _ => some [("B", "2")],
          SheetFault.ok, false⟩
        ⟨[["H"]]⟩).archiverInvoked = true :=
  (archiver_invoked_despite_sheet_failure (some "k") "m2" "f2" "yo"
    ⟨"id2", "b.mp3", true, WriteOutcome.ok, WhisperOutcome.segments ["yo"],
      GeminiOutcome.response "y", fun _ => some [("B", "2")],
      SheetFault.ok, false⟩ ⟨[["H"]]⟩ [("B", "2")]).1 rfl rfl (by decide) rfl
    (by decide)
